import Mathlib

set_option maxRecDepth 100000

/-!
Shallow embedding of the CRD upgrade-safety preflight
(internal/operator-controller/rukpak/preflights/crdupgradesafety):
the issue categorizer, the severity classifier, the summary accumulator and
the `runPreflight` orchestration loop, together with theorems settling the
frozen claims about them.

Strings are modelled as Lean `String`; Go `strings.ToLower` is modelled for
ASCII input (every string the package matches on is ASCII).  The seven
precompiled regular expressions are modelled by executable search functions
that implement their leftmost-first semantics; Go maps appearing in the
external Runner's `Results` are modelled as association lists in iteration
order (iteration order does not affect any counted property).
-/

namespace Crd

/-- ASCII lower-casing of one character; models Go strings.ToLower on the
ASCII strings this package handles. -/
def lowerChar (c : Char) : Char :=
  if c.toNat ≥ 65 ∧ c.toNat ≤ 90 then Char.ofNat (c.toNat + 32) else c

/-- Models strings.ToLower (ASCII). -/
def lowerStr (s : String) : String := ⟨s.data.map lowerChar⟩

/-- Substring search on character lists; models strings.Contains. -/
def containsSub (needle : List Char) : List Char → Bool
  | [] => needle.isPrefixOf []
  | h :: t => needle.isPrefixOf (h :: t) || containsSub needle t

/-- Models strings.Contains. -/
def strContains (s sub : String) : Bool := containsSub sub.data s.data

/-- Models strings.HasPrefix. -/
def strHasPrefix (s pre : String) : Bool := pre.data.isPrefixOf s.data

/-- Consume an exact literal, returning the rest of the input. -/
def dropLit (lit l : List Char) : Option (List Char) :=
  if lit.isPrefixOf l then some (l.drop lit.length) else none

/-- Consume one optional character (a regex `c?` whose presence is decided
greedily; for the patterns below the two alternatives never both succeed). -/
def dropOpt (c : Char) : List Char → List Char
  | [] => []
  | h :: t => if h == c then t else h :: t

/-- Leftmost-first regex search: try to parse at each position, left to
right, returning the first success. -/
def scanFirst (parse : List Char → Option α) : List Char → Option α
  | [] => parse []
  | c :: t =>
    match parse (c :: t) with
    | some r => some r
    | none => scanFirst parse t

/-- Greedy `.*` backtracking: try the split points right to left. -/
def tryFrom (parse : List Char → Option α) (l : List Char) : Nat → Option α
  | 0 => parse l
  | j + 1 =>
    match parse (l.drop (j + 1)) with
    | some r => some r
    | none => tryFrom parse l j

/-- A regex `.*` followed by `parse`: greedy, and the skipped span may not
contain a newline (regex `.` does not match a newline). -/
def scanGreedy (parse : List Char → Option α) (l : List Char) : Option α :=
  tryFrom parse l (l.takeWhile (fun c => !(c == '\n'))).length

/-- The character class `\S` (not a regex whitespace character). -/
def nonSpace (c : Char) : Bool :=
  !(c == ' ' || c == '\t' || c == '\n' || c == '\x0c' || c == '\x0d')

/-- Regex `type changed from (\S+) to (\S+)` at one position
(reFromToType's body). -/
def parseFromToType (l : List Char) : Option (String × String) :=
  match dropLit ("type changed from ").data l with
  | none => none
  | some r1 =>
    let f := r1.takeWhile nonSpace
    if f.isEmpty then none else
    match dropLit (" to ").data (r1.dropWhile nonSpace) with
    | none => none
    | some r2 =>
      let t := r2.takeWhile nonSpace
      if t.isEmpty then none else some (⟨f⟩, ⟨t⟩)

/-- reFromToType.FindStringSubmatch, as the two capture groups. -/
def reFromToTypeFind (s : String) : Option (String × String) :=
  scanFirst parseFromToType s.data

/-- Regex `default value changed from '([^']*)' to '([^']*)'` at one
position (reDefaultChange's body). -/
def parseDefaultChange (l : List Char) : Option (String × String) :=
  match dropLit ("default value changed from '").data l with
  | none => none
  | some r1 =>
    let f := r1.takeWhile (fun c => !(c == '\''))
    match dropLit ("' to '").data (r1.dropWhile (fun c => !(c == '\''))) with
    | none => none
    | some r2 =>
      let t := r2.takeWhile (fun c => !(c == '\''))
      match dropLit ("'").data (r2.dropWhile (fun c => !(c == '\''))) with
      | none => none
      | some _ => some (⟨f⟩, ⟨t⟩)

/-- reDefaultChange.FindStringSubmatch, as the two capture groups. -/
def reDefaultChangeFind (s : String) : Option (String × String) :=
  scanFirst parseDefaultChange s.data

/-- The tail ` from \[([^\]]*)\] to \[([^\]]*)\]` of reEnumTight. -/
def parseEnumTail (l : List Char) : Option (String × String) :=
  match dropLit (" from [").data l with
  | none => none
  | some r1 =>
    let f := r1.takeWhile (fun c => !(c == ']'))
    match dropLit ("] to [").data (r1.dropWhile (fun c => !(c == ']'))) with
    | none => none
    | some r2 =>
      let t := r2.takeWhile (fun c => !(c == ']'))
      match dropLit ("]").data (r2.dropWhile (fun c => !(c == ']'))) with
      | none => none
      | some _ => some (⟨f⟩, ⟨t⟩)

/-- Regex `enum constraint tightened.* from \[([^\]]*)\] to \[([^\]]*)\]`
at one position (reEnumTight's body). -/
def parseEnumTight (l : List Char) : Option (String × String) :=
  match dropLit ("enum constraint tightened").data l with
  | none => none
  | some r => scanGreedy parseEnumTail r

/-- reEnumTight.FindStringSubmatch, as the two capture groups. -/
def reEnumTightFind (s : String) : Option (String × String) :=
  scanFirst parseEnumTight s.data

/-- Regex `scope changed from "([^"]+)" to "([^"]+)"` at one position
(reScopeChange's body). -/
def parseScopeChange (l : List Char) : Option (String × String) :=
  match dropLit ("scope changed from \"").data l with
  | none => none
  | some r1 =>
    let f := r1.takeWhile (fun c => !(c == '"'))
    if f.isEmpty then none else
    match dropLit ("\" to \"").data (r1.dropWhile (fun c => !(c == '"'))) with
    | none => none
    | some r2 =>
      let t := r2.takeWhile (fun c => !(c == '"'))
      if t.isEmpty then none else
      match dropLit ("\"").data (r2.dropWhile (fun c => !(c == '"'))) with
      | none => none
      | some _ => some (⟨f⟩, ⟨t⟩)

/-- reScopeChange.FindStringSubmatch, as the two capture groups. -/
def reScopeChangeFind (s : String) : Option (String × String) :=
  scanFirst parseScopeChange s.data

/-- The tail ` increased from ([^ ]+) to ([^ ]+)` of reMinIncreased. -/
def parseMinTail (l : List Char) : Option (String × String) :=
  match dropLit (" increased from ").data l with
  | none => none
  | some r1 =>
    let f := r1.takeWhile (fun c => !(c == ' '))
    if f.isEmpty then none else
    match dropLit (" to ").data (r1.dropWhile (fun c => !(c == ' '))) with
    | none => none
    | some r2 =>
      let t := r2.takeWhile (fun c => !(c == ' '))
      if t.isEmpty then none else some (⟨f⟩, ⟨t⟩)

/-- Regex `minimum value.* increased from ([^ ]+) to ([^ ]+)` at one
position (reMinIncreased's body). -/
def parseMinIncreased (l : List Char) : Option (String × String) :=
  match dropLit ("minimum value").data l with
  | none => none
  | some r => scanGreedy parseMinTail r

/-- reMinIncreased.FindStringSubmatch, as the two capture groups. -/
def reMinIncreasedFind (s : String) : Option (String × String) :=
  scanFirst parseMinIncreased s.data

/-- The tail ` decreased from ([^ ]+) to ([^ ]+)` of reMaxDecreased. -/
def parseMaxTail (l : List Char) : Option (String × String) :=
  match dropLit (" decreased from ").data l with
  | none => none
  | some r1 =>
    let f := r1.takeWhile (fun c => !(c == ' '))
    if f.isEmpty then none else
    match dropLit (" to ").data (r1.dropWhile (fun c => !(c == ' '))) with
    | none => none
    | some r2 =>
      let t := r2.takeWhile (fun c => !(c == ' '))
      if t.isEmpty then none else some (⟨f⟩, ⟨t⟩)

/-- Regex `maximum value.* decreased from ([^ ]+) to ([^ ]+)` at one
position (reMaxDecreased's body). -/
def parseMaxDecreased (l : List Char) : Option (String × String) :=
  match dropLit ("maximum value").data l with
  | none => none
  | some r => scanGreedy parseMaxTail r

/-- reMaxDecreased.FindStringSubmatch, as the two capture groups. -/
def reMaxDecreasedFind (s : String) : Option (String × String) :=
  scanFirst parseMaxDecreased s.data

/-- Regex `stored version "?([^" ]+)"? removed` at one position
(reStoredRemoved's body). -/
def parseStoredRemoved (l : List Char) : Option String :=
  match dropLit ("stored version ").data l with
  | none => none
  | some r1 =>
    let r2 := dropOpt '"' r1
    let v := r2.takeWhile (fun c => !(c == '"' || c == ' '))
    if v.isEmpty then none else
    match dropLit (" removed").data (dropOpt '"' (r2.dropWhile (fun c => !(c == '"' || c == ' ')))) with
    | none => none
    | some _ => some ⟨v⟩

/-- reStoredRemoved.FindStringSubmatch, as the one capture group. -/
def reStoredRemovedFind (s : String) : Option String :=
  scanFirst parseStoredRemoved s.data

/-- The `arrow` helper: fmt.Sprintf("%s → %s", from, to). -/
def arrow (f t : String) : String := f ++ " → " ++ t

/-- categorizeValidationError: the specific, actionable message for one raw
CRD validation failure string, given its context string. -/
def categorizeValidationError (errStr context : String) : String :=
  let lowerErr := lowerStr errStr
  if let some v := reStoredRemovedFind lowerErr then
    "Version removal/scope change (" ++ context ++ "): stored version removed (" ++ v ++ ")"
  else if let some (f, t) := reScopeChangeFind lowerErr then
    "Version removal/scope change (" ++ context ++ "): scope " ++ arrow f t
  else if (strContains lowerErr "stored version" || strContains lowerErr "served version") && strContains lowerErr "removed" then
    "Version removal/scope change (" ++ context ++ "): stored/served version removed"
  else if strContains lowerErr "required" && (strContains lowerErr "added" || strContains lowerErr "new") then
    "Required field added (" ++ context ++ "): Make the new field optional or provide a default. Required-field additions break existing CRs and are rejected by OLM's safety check."
  else if strContains lowerErr "removal" || strContains lowerErr "removed" || strContains lowerErr "existing field" then
    "Field removal detected (" ++ context ++ "): The OLM preflight blocked our CRD update because it isn't backwards-compatible. Please rework the change to be additive: avoid removing fields."
  else if let some (f, t) := reEnumTightFind lowerErr then
    "Enum restriction tightened (" ++ context ++ "): " ++ arrow f t ++ ". Avoid narrowing enums; only additive relaxations are allowed."
  else if strContains lowerErr "enum values removed" || (strContains lowerErr "enum" && strContains lowerErr "removed") || strContains lowerErr "enum restriction added" then
    "Enum restriction added (" ++ context ++ "): Avoid adding new enum restrictions or removing existing enum values."
  else if let some (f, t) := reDefaultChangeFind lowerErr then
    "Default changed (" ++ context ++ "): " ++ arrow f t ++ ". Keep the old default, or introduce the new behavior via a new field or version."
  else if (strContains lowerErr "default" && strContains lowerErr "added") || strContains lowerErr "default value added" then
    "Default added (" ++ context ++ "): Adding a new default may change existing behavior. Prefer introducing a new field or version."
  else if (strContains lowerErr "default" && strContains lowerErr "removed") || strContains lowerErr "default value removed" then
    "Default removed (" ++ context ++ "): Removing a default may break existing behavior. Keep the existing default or introduce a new field."
  else if let some (f, t) := reFromToTypeFind lowerErr then
    "Type changed (" ++ context ++ "): " ++ arrow f t ++ ". The OLM preflight blocked our CRD update because it isn't backwards-compatible. Don't change types in place - add a new CRD version instead."
  else if strContains lowerErr "type" && (strContains lowerErr "changed" || strContains lowerErr "different") then
    "Type changed (" ++ context ++ "): The OLM preflight blocked our CRD update because it isn't backwards-compatible. Don't change types in place - add a new CRD version instead."
  else if let some (f, t) := reMinIncreasedFind lowerErr then
    "Minimum increased (" ++ context ++ "): " ++ arrow f t ++ ". Increasing minimums is prohibited; only decreases are allowed."
  else if let some (f, t) := reMaxDecreasedFind lowerErr then
    "Maximum decreased (" ++ context ++ "): " ++ arrow f t ++ ". Decreasing maximums is prohibited; only increases are allowed."
  else if (strContains lowerErr "minimum" || strContains lowerErr "maximum" || strContains lowerErr "minlength" || strContains lowerErr "maxlength" || strContains lowerErr "minitems" || strContains lowerErr "maxitems") && strContains lowerErr "added" then
    "Constraint added (" ++ context ++ "): Adding min/max constraints to previously unconstrained fields is prohibited."
  else
    "Backwards-compatibility issue (" ++ context ++ "): The OLM preflight blocked our CRD update because it isn't backwards-compatible. Please rework the change to be additive: avoid removing or tightening fields, don't change types in place, and keep defaults stable."

/-- determineErrorSeverity: critical, breaking, or minor from the raw text. -/
def determineErrorSeverity (errStr : String) : String :=
  let lowerErr := lowerStr errStr
  if strContains lowerErr "existing field" && strContains lowerErr "removed" then "critical"
  else if strContains lowerErr "required" && (strContains lowerErr "added" || strContains lowerErr "new") then "critical"
  else if strContains lowerErr "stored version" && strContains lowerErr "removed" then "critical"
  else if strContains lowerErr "served version" && strContains lowerErr "removed" then "critical"
  else if strContains lowerErr "scope changed" then "critical"
  else if strContains lowerErr "type changed" || (strContains lowerErr "type" && strContains lowerErr "changed") then "breaking"
  else if strContains lowerErr "enum constraint tightened" || (strContains lowerErr "enum" && (strContains lowerErr "removed" || strContains lowerErr "restricted")) then "breaking"
  else if strContains lowerErr "default value changed" || (strContains lowerErr "default" && (strContains lowerErr "changed" || strContains lowerErr "added" || strContains lowerErr "removed")) then "breaking"
  else if (strContains lowerErr "minimum" || strContains lowerErr "maximum" || strContains lowerErr "minlength" || strContains lowerErr "maxlength" || strContains lowerErr "minitems" || strContains lowerErr "maxitems") && (strContains lowerErr "increased" || strContains lowerErr "decreased" || strContains lowerErr "added") then "breaking"
  else "minor"

/-- The summary accumulator local to one CRD upgrade-safety evaluation. -/
structure preflightMessageSummary where
  CheckName : String
  Issues : List String
  CriticalCount : Nat
  BreakingCount : Nat

/-- newPreflightSummary: a fresh accumulator. -/
def newPreflightSummary : preflightMessageSummary :=
  { CheckName := "CRD Upgrade Safety", Issues := [], CriticalCount := 0, BreakingCount := 0 }

/-- AddCriticalIssue: count it and list it. -/
def AddCriticalIssue (s : preflightMessageSummary) (issue : String) : preflightMessageSummary :=
  { s with CriticalCount := s.CriticalCount + 1, Issues := s.Issues ++ [issue] }

/-- AddBreakingIssue: count it and list it. -/
def AddBreakingIssue (s : preflightMessageSummary) (issue : String) : preflightMessageSummary :=
  { s with BreakingCount := s.BreakingCount + 1, Issues := s.Issues ++ [issue] }

/-- AddIssue: non-blocking (minor) still listed but not counted in totals. -/
def AddIssue (s : preflightMessageSummary) (issue : String) : preflightMessageSummary :=
  { s with Issues := s.Issues ++ [issue] }

/-- GenerateMessage: render the accumulator. -/
def GenerateMessage (s : preflightMessageSummary) : String :=
  let total := s.CriticalCount + s.BreakingCount
  if total = 0 then s.CheckName ++ "\nTotal: 0\nIssues: none"
  else
    let header := s.CheckName ++ "\nTotal: " ++ toString total
    let parts : List String :=
      (if s.CriticalCount > 0 then [toString s.CriticalCount ++ " critical"] else [])
      ++ (if s.BreakingCount > 0 then [toString s.BreakingCount ++ " breaking"] else [])
    let header := if parts.length > 0 then header ++ " (" ++ String.intercalate ", " parts ++ ")" else header
    header ++ "\nIssues:\n" ++ String.intercalate "\n" (s.Issues.map (fun i => "- " ++ i))

/-- One external validation result: a check name and its raw failure strings
(crdify's validations.ComparisonResult, at the interface boundary). -/
structure ComparisonResult where
  Name : String
  Errors : List String

/-- The external Runner's result set, at the interface boundary the spec
fixes: a failure flag and three result shapes.  The two Go maps are
modelled as association lists in iteration order. -/
structure Results where
  HasFailures : Bool
  CRDValidation : List ComparisonResult
  SameVersionValidation : List (String × List (String × List ComparisonResult))
  ServedVersionValidation : List (String × List (String × List ComparisonResult))

/-- The issue messages summarizeValidationFailures accumulates, in order:
CRD-wide results, then same-version results (context
version.property.checkName), then served-version results (context
"served version: checkName"). -/
def collectIssues (results : Results) : List String :=
  (results.CRDValidation.flatMap fun r =>
    r.Errors.map fun e => categorizeValidationError e r.Name)
  ++ (results.SameVersionValidation.flatMap fun vp =>
      vp.2.flatMap fun pc =>
        pc.2.flatMap fun r =>
          r.Errors.map fun e =>
            categorizeValidationError e (vp.1 ++ "." ++ pc.1 ++ "." ++ r.Name))
  ++ (results.ServedVersionValidation.flatMap fun vp =>
      vp.2.flatMap fun pc =>
        pc.2.flatMap fun r =>
          r.Errors.map fun e =>
            categorizeValidationError e ("served version: " ++ r.Name))

/-- The three severity tiers the report's counting loop distinguishes. -/
inductive Tier where
  | critical
  | breaking
  | other
deriving DecidableEq

/-- The per-severity switch of summarizeValidationFailures: the tier of one
finalized issue message, recomputed from its rendered label prefix. -/
def issueTier (issue : String) : Tier :=
  let l := lowerStr issue
  if strHasPrefix l "field removal detected" then .critical
  else if strHasPrefix l "required field added" then .critical
  else if strHasPrefix l "version removal/scope change" then .critical
  else if strHasPrefix l "type changed" then .breaking
  else if strHasPrefix l "enum restriction tightened" || strHasPrefix l "enum restriction added" then .breaking
  else if strHasPrefix l "default changed" || strHasPrefix l "default added" || strHasPrefix l "default removed" then .breaking
  else if strHasPrefix l "minimum increased" || strHasPrefix l "maximum decreased" || strHasPrefix l "constraint added" then .breaking
  else .other

/-- The counting loop of summarizeValidationFailures:
(criticalCount, breakingCount, otherCount) over the finalized issues. -/
def severityCounts : List String → Nat × Nat × Nat
  | [] => (0, 0, 0)
  | i :: rest =>
    let r := severityCounts rest
    match issueTier i with
    | .critical => (r.1 + 1, r.2.1, r.2.2)
    | .breaking => (r.1, r.2.1 + 1, r.2.2)
    | .other => (r.1, r.2.1, r.2.2 + 1)

/-- summarizeValidationFailures on a non-nil Results value. -/
def summarizeValidationFailures (results : Results) : String :=
  let summary := (collectIssues results).foldl AddIssue newPreflightSummary
  let criticalCount := (severityCounts summary.Issues).1
  let breakingCount := (severityCounts summary.Issues).2.1
  let otherCount := (severityCounts summary.Issues).2.2
  let total := summary.Issues.length
  if total = 0 then "CRD Upgrade Safety\nTotal: 0\nIssues: none"
  else
    let parts : List String :=
      (if criticalCount > 0 then [toString criticalCount ++ " critical"] else [])
      ++ (if breakingCount > 0 then [toString breakingCount ++ " breaking"] else [])
      ++ (if otherCount > 0 then [toString otherCount ++ " other"] else [])
    let header := "CRD Upgrade Safety\nTotal: " ++ toString total ++ " (" ++ String.intercalate ", " parts ++ ")"
    header ++ "\nIssues:\n" ++ String.intercalate "\n" (summary.Issues.map (fun i => "- " ++ i))

/-- summarizeValidationFailures including its nil-pointer guard. -/
def summarizeValidationFailuresOpt : Option Results → String
  | none => "The OLM preflight blocked our CRD update because it isn't backwards-compatible. Please rework the change to be additive: avoid removing or tightening fields, don't change types in place, and keep defaults stable. If this is a semantic change, add a new CRD version and keep the old one served until we migrate."
  | some results => summarizeValidationFailures results

/-- A group/version/kind type descriptor. -/
structure GroupVersionKind where
  group : String
  version : String
  kind : String
deriving DecidableEq

/-- apiextensionsv1.SchemeGroupVersion.WithKind("CustomResourceDefinition"). -/
def crdGVK : GroupVersionKind :=
  { group := "apiextensions.k8s.io", version := "v1", kind := "CustomResourceDefinition" }

/-- The only CRD datum runPreflight reads is the object name. -/
structure CustomResourceDefinition where
  Name : String

/-- Opaque stand-in for the unstructured map the converter produces. -/
abbrev Unstructured := String

/-- One parsed manifest object: its type descriptor, its GetName(), and the
(externally supplied) outcome of converting it to unstructured form. -/
structure ManifestObj where
  gvk : GroupVersionKind
  Name : String
  toUnstructuredResult : Except String Unstructured

/-- The existing-CRD lookup's three outcomes: found, the distinguished
not-found error (apierrors.IsNotFound), or any other retrieval error. -/
inductive LookupResult where
  | found (crd : CustomResourceDefinition)
  | notFound
  | failed (msg : String)

/-- errors.Join on error messages: nil for an empty list, otherwise the
messages joined by newlines. -/
def joinErrors : List String → Option String
  | [] => none
  | es => some (String.intercalate "\n" es)

/-- The per-object loop of runPreflight.  `validateErrors` is the list of
collected per-object "upgrade blocked" errors; a conversion error or a
non-not-found lookup error returns immediately, discarding it. -/
def loopObjs (getCRD : String → LookupResult)
    (run : CustomResourceDefinition → CustomResourceDefinition → Results)
    (fromUnstructured : Unstructured → Except String CustomResourceDefinition) :
    List ManifestObj → List String → Option String
  | [], validateErrors => joinErrors validateErrors
  | obj :: rest, validateErrors =>
    if obj.gvk ≠ crdGVK then loopObjs getCRD run fromUnstructured rest validateErrors
    else
      match obj.toUnstructuredResult with
      | .error e => some ("converting object \"" ++ obj.Name ++ "\" to unstructured: " ++ e)
      | .ok u =>
        match fromUnstructured u with
        | .error e => some ("converting unstructured to CRD object: " ++ e)
        | .ok newCrd =>
          match getCRD newCrd.Name with
          | .notFound => loopObjs getCRD run fromUnstructured rest validateErrors
          | .failed e => some ("getting existing resource for CRD \"" ++ newCrd.Name ++ "\": " ++ e)
          | .found oldCrd =>
            let results := run oldCrd newCrd
            if results.HasFailures then
              loopObjs getCRD run fromUnstructured rest
                (validateErrors ++ ["CRD \"" ++ newCrd.Name ++ "\" upgrade blocked: " ++ summarizeValidationFailures results])
            else loopObjs getCRD run fromUnstructured rest validateErrors

/-- A Helm release, as runPreflight reads it: its name and manifest text. -/
structure Release where
  Name : String
  Manifest : String

/-- The external collaborators runPreflight calls: manifest parsing, runner
construction, the existing-CRD lookup and the unstructured-to-CRD
conversion. -/
structure PreflightEnv where
  manifestObjects : String → String → Except String (List ManifestObj)
  runnerNew : Except String (CustomResourceDefinition → CustomResourceDefinition → Results)
  getCRD : String → LookupResult
  fromUnstructured : Unstructured → Except String CustomResourceDefinition

/-- runPreflight: nil release is a no-op; parse the manifest, build the
runner, then walk the objects. -/
def runPreflight (env : PreflightEnv) : Option Release → Option String
  | none => none
  | some rel =>
    match env.manifestObjects rel.Manifest (rel.Name ++ "-release-manifest") with
    | .error e => some ("parsing release \"" ++ rel.Name ++ "\" objects: " ++ e)
    | .ok relObjects =>
      match env.runnerNew with
      | .error e => some ("creating CRD validation runner: " ++ e)
      | .ok run => loopObjs env.getCRD run env.fromUnstructured relObjects []

/-- The tier vocabulary determineErrorSeverity uses, applied to the
label-prefix table's tiers (the table's "other" bucket is the minor tier). -/
def tierName : Tier → String
  | .critical => "critical"
  | .breaking => "breaking"
  | .other => "minor"

/-- One call against the summary accumulator: the three mutating operations
of one upgrade-safety run, in call order. -/
inductive SummaryOp where
  | addCritical (issue : String)
  | addBreaking (issue : String)
  | addMinor (issue : String)

/-- Apply one accumulator call. -/
def applyOp (s : preflightMessageSummary) : SummaryOp → preflightMessageSummary
  | .addCritical i => AddCriticalIssue s i
  | .addBreaking i => AddBreakingIssue s i
  | .addMinor i => AddIssue s i

/-- Apply a call sequence to a freshly constructed accumulator. -/
def applyOps (ops : List SummaryOp) : preflightMessageSummary :=
  ops.foldl applyOp newPreflightSummary

/-- How many AddCriticalIssue calls a sequence makes. -/
def countCritical (ops : List SummaryOp) : Nat :=
  ops.countP fun op => match op with | .addCritical _ => true | _ => false

/-- How many AddBreakingIssue calls a sequence makes. -/
def countBreaking (ops : List SummaryOp) : Nat :=
  ops.countP fun op => match op with | .addBreaking _ => true | _ => false

/-- The six from/to extraction patterns of categorizeValidationError. -/
inductive FromToPat where
  | typeChange
  | defaultChange
  | enumTight
  | scopeChange
  | minIncreased
  | maxDecreased

/-- The find function of one from/to pattern, on the lowered failure text. -/
def patFind : FromToPat → String → Option (String × String)
  | .typeChange, l => reFromToTypeFind l
  | .defaultChange, l => reDefaultChangeFind l
  | .enumTight, l => reEnumTightFind l
  | .scopeChange, l => reScopeChangeFind l
  | .minIncreased, l => reMinIncreasedFind l
  | .maxDecreased, l => reMaxDecreasedFind l

/-- Cumulative branch guards on the lowered failure text: each records that
every branch of categorizeValidationError up to a given point failed. -/
def noStoredBranch (l : String) : Bool := (reStoredRemovedFind l).isNone

/-- All branches before the generic version-removal test fail. -/
def noScopeBranch (l : String) : Bool :=
  noStoredBranch l && (reScopeChangeFind l).isNone

/-- All branches before the required-field test fail. -/
def noVersionBranch (l : String) : Bool :=
  noScopeBranch l && !((strContains l "stored version" || strContains l "served version") && strContains l "removed")

/-- All branches before the field-removal test fail. -/
def noRequiredBranch (l : String) : Bool :=
  noVersionBranch l && !(strContains l "required" && (strContains l "added" || strContains l "new"))

/-- All branches before the enum-tightening pattern fail. -/
def noRemovalBranch (l : String) : Bool :=
  noRequiredBranch l && !(strContains l "removal" || strContains l "removed" || strContains l "existing field")

/-- All branches before the generic enum-restriction test fail. -/
def noEnumTightBranch (l : String) : Bool :=
  noRemovalBranch l && (reEnumTightFind l).isNone

/-- All branches before the default-change pattern fail. -/
def noEnumAddBranch (l : String) : Bool :=
  noEnumTightBranch l && !(strContains l "enum values removed" || (strContains l "enum" && strContains l "removed") || strContains l "enum restriction added")

/-- All branches before the default-added test fail. -/
def noDefaultChangeBranch (l : String) : Bool :=
  noEnumAddBranch l && (reDefaultChangeFind l).isNone

/-- All branches before the default-removed test fail. -/
def noDefaultAddBranch (l : String) : Bool :=
  noDefaultChangeBranch l && !((strContains l "default" && strContains l "added") || strContains l "default value added")

/-- All branches before the type-change pattern fail. -/
def noDefaultRemoveBranch (l : String) : Bool :=
  noDefaultAddBranch l && !((strContains l "default" && strContains l "removed") || strContains l "default value removed")

/-- All branches before the generic type-change test fail. -/
def noTypeReBranch (l : String) : Bool :=
  noDefaultRemoveBranch l && (reFromToTypeFind l).isNone

/-- All branches before the minimum-increased pattern fail. -/
def noTypeGenericBranch (l : String) : Bool :=
  noTypeReBranch l && !(strContains l "type" && (strContains l "changed" || strContains l "different"))

/-- All branches before the maximum-decreased pattern fail. -/
def noMinReBranch (l : String) : Bool :=
  noTypeGenericBranch l && (reMinIncreasedFind l).isNone

/-- Every branch of categorizeValidationError evaluated before the given
pattern's own branch fails on the lowered failure text. -/
def reachesPat : FromToPat → String → Bool
  | .typeChange, l => noDefaultRemoveBranch l
  | .defaultChange, l => noEnumAddBranch l
  | .enumTight, l => noRemovalBranch l
  | .scopeChange, l => noStoredBranch l
  | .minIncreased, l => noTypeGenericBranch l
  | .maxDecreased, l => noMinReBranch l

/-- A Results value holding exactly one CRD-wide failure that categorizes to
the generic fallback message (no critical or breaking label). -/
def c1Results : Results :=
  { HasFailures := true
    CRDValidation := [{ Name := "x", Errors := ["some other backwards compatibility failure"] }]
    SameVersionValidation := []
    ServedVersionValidation := [] }

/-- A Results value whose failure flag is set while every per-check error
list is empty. -/
def emptyFailedResults : Results :=
  { HasFailures := true
    CRDValidation := [{ Name := "noChange", Errors := [] }]
    SameVersionValidation := []
    ServedVersionValidation := [] }

/-- Witness fixture: a CRD-kind manifest object whose conversion succeeds. -/
def wObj : ManifestObj :=
  { gvk := crdGVK
    Name := "memcacheds.cache.example.com"
    toUnstructuredResult := .ok "memcacheds.cache.example.com" }

/-- Witness fixture: the conversion yielding a CRD named by its input. -/
def wFromU : Unstructured → Except String CustomResourceDefinition :=
  fun u => .ok { Name := u }

/-- Witness fixture: a runner whose result always has the failure flag set
and no per-check errors. -/
def wRun : CustomResourceDefinition → CustomResourceDefinition → Results :=
  fun _ _ => emptyFailedResults

/-- Witness fixture: a lookup in which no CRD is currently installed. -/
def wGetNotFound : String → LookupResult := fun _ => .notFound

/-- Witness fixture: a lookup failing with a non-not-found error. -/
def wGetFailed : String → LookupResult := fun _ => .failed "etcdserver: request timed out"

/-- Witness fixture: a lookup finding an installed CRD of the asked name. -/
def wGetFound : String → LookupResult := fun n => .found { Name := n }

/-- Witness fixture: collaborators for a one-CRD release whose existing CRD
is not found. -/
def wEnvNotFound : PreflightEnv :=
  { manifestObjects := fun _ _ => .ok [wObj]
    runnerNew := .ok wRun
    getCRD := wGetNotFound
    fromUnstructured := wFromU }

/-- Witness fixture: a release value. -/
def wRel : Release := { Name := "my-operator", Manifest := "---" }

/-! Shared lemmas about the string helpers and the accumulator. -/

theorem isPrefixOf_self_append (m y : List Char) : m.isPrefixOf (m ++ y) = true := by
  induction m with
  | nil => simp [List.isPrefixOf]
  | cons h t ih => simp [List.isPrefixOf, ih]

theorem containsSub_of_isPrefixOf (m l : List Char) (h : m.isPrefixOf l = true) :
    containsSub m l = true := by
  cases l with
  | nil => simpa [containsSub] using h
  | cons a t => simp [containsSub, h]

theorem containsSub_append_middle (x m y : List Char) : containsSub m (x ++ m ++ y) = true := by
  induction x with
  | nil => exact containsSub_of_isPrefixOf _ _ (isPrefixOf_self_append m y)
  | cons a t ih =>
    show containsSub m (a :: (t ++ m ++ y)) = true
    rw [containsSub, ih, Bool.or_true]

theorem strContains_append_middle (a m b : String) : strContains (a ++ m ++ b) m = true := by
  show containsSub m.data (a ++ m ++ b).data = true
  rw [String.data_append, String.data_append]
  exact containsSub_append_middle a.data m.data b.data

theorem strContains_append_right (a m : String) : strContains (a ++ m) m = true := by
  have := strContains_append_middle a m ""
  rwa [String.append_empty] at this

theorem foldl_AddIssue_Issues (l : List String) (s : preflightMessageSummary) :
    (l.foldl AddIssue s).Issues = s.Issues ++ l := by
  induction l generalizing s with
  | nil => simp
  | cons h t ih => simp [AddIssue, ih]

theorem severityCounts_sum (l : List String) :
    (severityCounts l).1 + (severityCounts l).2.1 + (severityCounts l).2.2 = l.length := by
  induction l with
  | nil => rfl
  | cons i rest ih =>
    simp only [severityCounts, List.length_cons]
    cases h : issueTier i <;> simp [h] <;> omega

theorem foldl_applyOp_CriticalCount (ops : List SummaryOp) (s : preflightMessageSummary) :
    (ops.foldl applyOp s).CriticalCount = s.CriticalCount + countCritical ops := by
  induction ops generalizing s with
  | nil => simp [countCritical]
  | cons op t ih =>
    cases op <;>
      simp [applyOp, AddCriticalIssue, AddBreakingIssue, AddIssue, countCritical,
        List.countP_cons, ih] <;> omega

theorem foldl_applyOp_BreakingCount (ops : List SummaryOp) (s : preflightMessageSummary) :
    (ops.foldl applyOp s).BreakingCount = s.BreakingCount + countBreaking ops := by
  induction ops generalizing s with
  | nil => simp [countBreaking]
  | cons op t ih =>
    cases op <;>
      simp [applyOp, AddCriticalIssue, AddBreakingIssue, AddIssue, countBreaking,
        List.countP_cons, ih] <;> omega

theorem foldl_applyOp_CheckName (ops : List SummaryOp) (s : preflightMessageSummary) :
    (ops.foldl applyOp s).CheckName = s.CheckName := by
  induction ops generalizing s with
  | nil => rfl
  | cons op t ih =>
    cases op <;> simp [applyOp, AddCriticalIssue, AddBreakingIssue, AddIssue, ih]

theorem flatMap_eq_nil_of_forall {α β : Type} (f : α → List β) (l : List α)
    (h : ∀ a ∈ l, f a = []) : l.flatMap f = [] := by
  rw [List.flatMap_eq_nil_iff]
  exact h

theorem collectIssues_nil (results : Results)
    (h1 : ∀ r ∈ results.CRDValidation, r.Errors = [])
    (h2 : ∀ vp ∈ results.SameVersionValidation, ∀ pc ∈ vp.2, ∀ r ∈ pc.2, r.Errors = [])
    (h3 : ∀ vp ∈ results.ServedVersionValidation, ∀ pc ∈ vp.2, ∀ r ∈ pc.2, r.Errors = []) :
    collectIssues results = [] := by
  unfold collectIssues
  rw [List.append_eq_nil, List.append_eq_nil]
  refine ⟨⟨?_, ?_⟩, ?_⟩
  · exact flatMap_eq_nil_of_forall _ _ fun r hr => by simp [h1 r hr]
  · exact flatMap_eq_nil_of_forall _ _ fun vp hvp =>
      flatMap_eq_nil_of_forall _ _ fun pc hpc =>
        flatMap_eq_nil_of_forall _ _ fun r hr => by simp [h2 vp hvp pc hpc r hr]
  · exact flatMap_eq_nil_of_forall _ _ fun vp hvp =>
      flatMap_eq_nil_of_forall _ _ fun pc hpc =>
        flatMap_eq_nil_of_forall _ _ fun r hr => by simp [h3 vp hvp pc hpc r hr]

theorem summarize_of_no_issues (results : Results) (hnil : collectIssues results = []) :
    summarizeValidationFailures results = "CRD Upgrade Safety\nTotal: 0\nIssues: none" := by
  simp [summarizeValidationFailures, hnil, newPreflightSummary]

/-! The claims. -/

/-- C1 (counterexample): a Results value with one issue of the minor/other
tier has zero critical-tier and zero breaking-tier issues, yet its report
reads "Total: 1 (1 other)" — the minor issue contributes to the Total
figure, contradicting the claim that Total equals critical plus breaking. -/
theorem c1_counterexample :
    (severityCounts (collectIssues c1Results)).1 = 0
    ∧ (severityCounts (collectIssues c1Results)).2.1 = 0
    ∧ summarizeValidationFailures c1Results
        = "CRD Upgrade Safety\nTotal: 1 (1 other)\nIssues:\n- Backwards-compatibility issue (x): The OLM preflight blocked our CRD update because it isn't backwards-compatible. Please rework the change to be additive: avoid removing or tightening fields, don't change types in place, and keep defaults stable." := by
  decide

/-- C1 (amended): in summarizeValidationFailures the "Total: n" figure is
the number of all accumulated issues — the critical-tier count plus the
breaking-tier count plus the minor/other-tier count; minor/other issues are
listed as bullet lines and do contribute to the Total. -/
theorem c1_total_counts_all_tiers (results : Results) :
    (severityCounts (collectIssues results)).1 + (severityCounts (collectIssues results)).2.1
        + (severityCounts (collectIssues results)).2.2 = (collectIssues results).length
    ∧ ∃ tail, summarizeValidationFailures results
        = "CRD Upgrade Safety\nTotal: " ++ toString (collectIssues results).length ++ tail := by
  have hiss : ((collectIssues results).foldl AddIssue newPreflightSummary).Issues
      = collectIssues results := by
    simp [foldl_AddIssue_Issues, newPreflightSummary]
  refine ⟨severityCounts_sum _, ?_⟩
  simp only [summarizeValidationFailures, hiss]
  by_cases h : (collectIssues results).length = 0
  · rw [if_pos h, h]
    exact ⟨"\nIssues: none", by decide⟩
  · rw [if_neg h]
    exact ⟨_, by simp only [String.append_assoc]; rfl⟩

/-- C2 (counterexample): on the raw failure "foo removed" the rendered
message's label prefix puts it in the critical tier, while
determineErrorSeverity assigns the raw text the minor tier — the two
classifications are not in lock-step. -/
theorem c2_counterexample :
    tierName (issueTier (categorizeValidationError "foo removed" "ctx")) = "critical"
    ∧ determineErrorSeverity "foo removed" = "minor"
    ∧ tierName (issueTier (categorizeValidationError "foo removed" "ctx"))
        ≠ determineErrorSeverity "foo removed" := by
  decide

/-- C2 (amended): the tier recomputed from the rendered label and the tier
determineErrorSeverity assigns to the raw text agree on the canonical
pattern inputs — existing-field removal, required-field addition,
stored-version removal, type change and enum tightening — but not on every
raw failure string. -/
theorem c2_agree_on_canonical :
    tierName (issueTier (categorizeValidationError "existing field 'spec.route' removed from schema" "c"))
      = determineErrorSeverity "existing field 'spec.route' removed from schema"
    ∧ tierName (issueTier (categorizeValidationError "required field 'spec.mandatory' added to schema" "c"))
      = determineErrorSeverity "required field 'spec.mandatory' added to schema"
    ∧ tierName (issueTier (categorizeValidationError "stored version v1alpha1 removed" "c"))
      = determineErrorSeverity "stored version v1alpha1 removed"
    ∧ tierName (issueTier (categorizeValidationError "field type changed from string to integer" "c"))
      = determineErrorSeverity "field type changed from string to integer"
    ∧ tierName (issueTier (categorizeValidationError "enum constraint tightened from [a,b,c] to [a,b]" "c"))
      = determineErrorSeverity "enum constraint tightened from [a,b,c] to [a,b]" := by
  decide

/-- C3 (counterexample): the raw failure "type changed from string to
integer and field removed" matches the type-change pattern with captures
string and integer, yet categorizeValidationError does not return the
type-change message for it (the earlier field-removal keyword branch
fires). -/
theorem c3_counterexample :
    reFromToTypeFind (lowerStr "type changed from string to integer and field removed")
      = some ("string", "integer")
    ∧ categorizeValidationError "type changed from string to integer and field removed" "c"
        ≠ "Type changed (c): string → integer. The OLM preflight blocked our CRD update because it isn't backwards-compatible. Don't change types in place - add a new CRD version instead." := by
  decide

/-- C3 (amended): categorizeValidationError evaluates its branches in the
fixed source order — stored-version removal, scope change, generic version
removal, required-field keywords, field-removal keywords, enum tightening,
enum restriction, default change/added/removed, type change, generic type
keywords, minimum increased, maximum decreased, constraint added, generic
fallback — interleaving structured patterns with generic keyword tests; an
input matching the type-change pattern that also contains "removed" yields
the field-removal message, while without such keywords it yields the
type-change message. -/
theorem c3_branch_order :
    categorizeValidationError "type changed from string to integer and field removed" "c"
      = "Field removal detected (c): The OLM preflight blocked our CRD update because it isn't backwards-compatible. Please rework the change to be additive: avoid removing fields."
    ∧ categorizeValidationError "type changed from string to integer" "c"
      = "Type changed (c): string → integer. The OLM preflight blocked our CRD update because it isn't backwards-compatible. Don't change types in place - add a new CRD version instead." := by
  decide

/-- C4 (counterexample): the raw failure "type changed from string to
integer and field removed" matches the type-change from/to pattern, yet the
message categorizeValidationError returns for it does not contain the
arrow rendering of the captures (the field-removal branch fires first). -/
theorem c4_counterexample :
    reFromToTypeFind (lowerStr "type changed from string to integer and field removed")
      = some ("string", "integer")
    ∧ strContains
        (categorizeValidationError "type changed from string to integer and field removed" "c")
        (arrow "string" "integer") = false := by
  decide

/-- C4 (amended): for every raw failure string matched by one of the six
from/to patterns whose branch of categorizeValidationError is actually
reached (every branch checked before it fails), the returned message
contains the literal substring of the two capture groups joined by the
arrow, verbatim. -/
theorem c4_arrow_when_branch_reached (p : FromToPat) (s ctx f t : String)
    (hreach : reachesPat p (lowerStr s) = true)
    (hfind : patFind p (lowerStr s) = some (f, t)) :
    strContains (categorizeValidationError s ctx) (arrow f t) = true := by
  cases p with
  | scopeChange =>
    simp only [reachesPat, noStoredBranch, Option.isNone_iff_eq_none] at hreach
    simp only [patFind] at hfind
    simp only [categorizeValidationError, hreach, hfind]
    exact strContains_append_right _ _
  | enumTight =>
    simp only [reachesPat, noRemovalBranch, noRequiredBranch, noVersionBranch, noScopeBranch,
      noStoredBranch, Bool.and_eq_true, Bool.not_eq_true', Option.isNone_iff_eq_none] at hreach
    obtain ⟨⟨⟨⟨hstored, hscope⟩, hver⟩, hreq⟩, hrem⟩ := hreach
    simp only [patFind] at hfind
    simp [categorizeValidationError, hstored, hscope, hver, hreq, hrem, hfind]
    exact strContains_append_middle _ _ _
  | defaultChange =>
    simp only [reachesPat, noEnumAddBranch, noEnumTightBranch, noRemovalBranch,
      noRequiredBranch, noVersionBranch, noScopeBranch, noStoredBranch, Bool.and_eq_true,
      Bool.not_eq_true', Option.isNone_iff_eq_none] at hreach
    obtain ⟨⟨⟨⟨⟨⟨hstored, hscope⟩, hver⟩, hreq⟩, hrem⟩, henumT⟩, henumA⟩ := hreach
    simp only [patFind] at hfind
    simp [categorizeValidationError, hstored, hscope, hver, hreq, hrem, henumT, henumA, hfind]
    exact strContains_append_middle _ _ _
  | typeChange =>
    simp only [reachesPat, noDefaultRemoveBranch, noDefaultAddBranch, noDefaultChangeBranch,
      noEnumAddBranch, noEnumTightBranch, noRemovalBranch, noRequiredBranch, noVersionBranch,
      noScopeBranch, noStoredBranch, Bool.and_eq_true, Bool.not_eq_true',
      Option.isNone_iff_eq_none] at hreach
    obtain ⟨⟨⟨⟨⟨⟨⟨⟨⟨hstored, hscope⟩, hver⟩, hreq⟩, hrem⟩, henumT⟩, henumA⟩, hdefC⟩, hdefA⟩,
      hdefR⟩ := hreach
    simp only [patFind] at hfind
    simp [categorizeValidationError, hstored, hscope, hver, hreq, hrem, henumT, henumA, hdefC,
      hdefA, hdefR, hfind]
    exact strContains_append_middle _ _ _
  | minIncreased =>
    simp only [reachesPat, noTypeGenericBranch, noTypeReBranch, noDefaultRemoveBranch,
      noDefaultAddBranch, noDefaultChangeBranch, noEnumAddBranch, noEnumTightBranch,
      noRemovalBranch, noRequiredBranch, noVersionBranch, noScopeBranch, noStoredBranch,
      Bool.and_eq_true, Bool.not_eq_true', Option.isNone_iff_eq_none] at hreach
    obtain ⟨⟨⟨⟨⟨⟨⟨⟨⟨⟨⟨hstored, hscope⟩, hver⟩, hreq⟩, hrem⟩, henumT⟩, henumA⟩, hdefC⟩, hdefA⟩,
      hdefR⟩, htypeRe⟩, htypeGen⟩ := hreach
    simp only [patFind] at hfind
    simp [categorizeValidationError, hstored, hscope, hver, hreq, hrem, henumT, henumA, hdefC,
      hdefA, hdefR, htypeRe, htypeGen, hfind]
    exact strContains_append_middle _ _ _
  | maxDecreased =>
    simp only [reachesPat, noMinReBranch, noTypeGenericBranch, noTypeReBranch,
      noDefaultRemoveBranch, noDefaultAddBranch, noDefaultChangeBranch, noEnumAddBranch,
      noEnumTightBranch, noRemovalBranch, noRequiredBranch, noVersionBranch, noScopeBranch,
      noStoredBranch, Bool.and_eq_true, Bool.not_eq_true', Option.isNone_iff_eq_none] at hreach
    obtain ⟨⟨⟨⟨⟨⟨⟨⟨⟨⟨⟨⟨hstored, hscope⟩, hver⟩, hreq⟩, hrem⟩, henumT⟩, henumA⟩, hdefC⟩, hdefA⟩,
      hdefR⟩, htypeRe⟩, htypeGen⟩, hminRe⟩ := hreach
    simp only [patFind] at hfind
    simp [categorizeValidationError, hstored, hscope, hver, hreq, hrem, henumT, henumA, hdefC,
      hdefA, hdefR, htypeRe, htypeGen, hminRe, hfind]
    exact strContains_append_middle _ _ _

/-- C4 (witness): the type-change pattern on a raw failure reaching its
branch yields a message containing the verbatim arrow of its captures. -/
theorem c4_arrow_when_branch_reached_witness :
    strContains
      (categorizeValidationError "field type changed from string to integer" "v1alpha1.status.replicas")
      (arrow "string" "integer") = true :=
  c4_arrow_when_branch_reached FromToPat.typeChange
    "field type changed from string to integer" "v1alpha1.status.replicas"
    "string" "integer" (by decide) (by decide)

/-- C5: categorizeValidationError on the raw failure "required field
'newField' added to schema" with context "v1beta1.spec" returns exactly the
required-field-added message. -/
theorem c5_required_field_message :
    categorizeValidationError "required field 'newField' added to schema" "v1beta1.spec"
      = "Required field added (v1beta1.spec): Make the new field optional or provide a default. Required-field additions break existing CRs and are rejected by OLM's safety check." := by
  decide

/-- C9: whenever an accumulator carrying the CRD Upgrade Safety check name
has critical plus breaking total zero, GenerateMessage renders the fixed
canonical "Total: 0 / Issues: none" text, whatever minor issues it lists. -/
theorem c9_zero_total_message (s : preflightMessageSummary)
    (hname : s.CheckName = "CRD Upgrade Safety")
    (hzero : s.CriticalCount + s.BreakingCount = 0) :
    GenerateMessage s = "CRD Upgrade Safety\nTotal: 0\nIssues: none" := by
  simp only [GenerateMessage]
  rw [hzero, hname]
  simp

/-- C9 (witness): a freshly constructed accumulator renders the canonical
zero-issue text. -/
theorem c9_zero_total_message_witness :
    GenerateMessage newPreflightSummary = "CRD Upgrade Safety\nTotal: 0\nIssues: none" :=
  c9_zero_total_message newPreflightSummary rfl rfl

/-- C6: for every finite sequence of AddCriticalIssue, AddBreakingIssue and
AddIssue calls on a freshly constructed accumulator, the accumulator's
critical count equals the number of AddCriticalIssue calls, its breaking
count the number of AddBreakingIssue calls, and GenerateMessage reports
their sum as the Total — AddIssue calls never change it. -/
theorem c6_tier_count_law (ops : List SummaryOp) :
    (applyOps ops).CriticalCount = countCritical ops
    ∧ (applyOps ops).BreakingCount = countBreaking ops
    ∧ ∃ tail, GenerateMessage (applyOps ops)
        = "CRD Upgrade Safety\nTotal: " ++ toString (countCritical ops + countBreaking ops) ++ tail := by
  have hc : (applyOps ops).CriticalCount = countCritical ops := by
    simp [applyOps, foldl_applyOp_CriticalCount, newPreflightSummary]
  have hb : (applyOps ops).BreakingCount = countBreaking ops := by
    simp [applyOps, foldl_applyOp_BreakingCount, newPreflightSummary]
  have hn : (applyOps ops).CheckName = "CRD Upgrade Safety" := by
    simp [applyOps, foldl_applyOp_CheckName, newPreflightSummary]
  refine ⟨hc, hb, ?_⟩
  simp only [GenerateMessage, hc, hb, hn]
  rw [(by decide : ("CRD Upgrade Safety\nTotal: " : String) = "CRD Upgrade Safety" ++ "\nTotal: ")]
  by_cases h : countCritical ops + countBreaking ops = 0
  · rw [if_pos h, h]
    exact ⟨"\nIssues: none", by decide⟩
  · rw [if_neg h]
    rcases Nat.eq_zero_or_pos (countCritical ops) with hc0 | hcpos
    · rcases Nat.eq_zero_or_pos (countBreaking ops) with hb0 | hbpos
      · exact absurd (by omega) h
      · simp [hc0, hbpos]
        exact ⟨_, by simp only [String.append_assoc]; rfl⟩
    · rcases Nat.eq_zero_or_pos (countBreaking ops) with hb0 | hbpos
      · simp [hb0, hcpos]
        exact ⟨_, by simp only [String.append_assoc]; rfl⟩
      · simp [hcpos, hbpos]
        exact ⟨_, by simp only [String.append_assoc]; rfl⟩

/-- C7: when the existing-CRD lookup for a CRD-kind object reports
not-found, runPreflight skips the object — recording no issue and no error
and continuing with the remaining objects, for any runner whatever — and a
release whose only CRD object has no prior installed version yields a nil
overall error. -/
theorem c7_not_found_short_circuit
    (getCRD : String → LookupResult)
    (runA runB : CustomResourceDefinition → CustomResourceDefinition → Results)
    (fromU : Unstructured → Except String CustomResourceDefinition)
    (o : ManifestObj) (rest : List ManifestObj) (acc : List String)
    (u : Unstructured) (crd : CustomResourceDefinition)
    (hg : o.gvk = crdGVK) (hu : o.toUnstructuredResult = Except.ok u)
    (hf : fromU u = Except.ok crd) (hnf : getCRD crd.Name = LookupResult.notFound) :
    loopObjs getCRD runA fromU (o :: rest) acc = loopObjs getCRD runA fromU rest acc
    ∧ ∀ env : PreflightEnv, ∀ rel : Release,
        env.getCRD = getCRD → env.fromUnstructured = fromU →
        env.manifestObjects rel.Manifest (rel.Name ++ "-release-manifest") = Except.ok [o] →
        env.runnerNew = Except.ok runB →
        runPreflight env (some rel) = none := by
  have hskip : ∀ run rest' acc', loopObjs getCRD run fromU (o :: rest') acc'
      = loopObjs getCRD run fromU rest' acc' := by
    intro run rest' acc'
    simp [loopObjs, hg, hu, hf, hnf]
  refine ⟨hskip runA rest acc, ?_⟩
  intro env rel hge hfe hm hr
  simp only [runPreflight, hm, hr]
  rw [hge, hfe, hskip runB [] []]
  rfl

/-- C7 (witness): a one-CRD release whose existing CRD is not installed
passes the preflight with a nil error. -/
theorem c7_witness : runPreflight wEnvNotFound (some wRel) = none :=
  (c7_not_found_short_circuit wGetNotFound wRun wRun wFromU wObj [] []
      "memcacheds.cache.example.com" { Name := "memcacheds.cache.example.com" }
      rfl rfl rfl rfl).2 wEnvNotFound wRel rfl rfl rfl rfl

/-- C8: a non-not-found lookup error for a CRD-kind object makes the loop
return that retrieval error immediately, wrapped with the CRD's name —
whatever objects remain and whatever per-object errors were already
collected, none of which are joined into the result. -/
theorem c8_retrieval_error_aborts
    (getCRD : String → LookupResult)
    (run : CustomResourceDefinition → CustomResourceDefinition → Results)
    (fromU : Unstructured → Except String CustomResourceDefinition)
    (o : ManifestObj) (rest : List ManifestObj) (acc : List String)
    (u : Unstructured) (crd : CustomResourceDefinition) (e : String)
    (hg : o.gvk = crdGVK) (hu : o.toUnstructuredResult = Except.ok u)
    (hf : fromU u = Except.ok crd) (herr : getCRD crd.Name = LookupResult.failed e) :
    loopObjs getCRD run fromU (o :: rest) acc
      = some ("getting existing resource for CRD \"" ++ crd.Name ++ "\": " ++ e) := by
  simp [loopObjs, hg, hu, hf, herr]

/-- C8 (witness): with one blocked-upgrade error already collected and one
object still pending, a failing lookup aborts with only the wrapped
retrieval error. -/
theorem c8_retrieval_error_aborts_witness :
    loopObjs wGetFailed wRun wFromU [wObj, wObj] ["CRD \"other\" upgrade blocked: x"]
      = some "getting existing resource for CRD \"memcacheds.cache.example.com\": etcdserver: request timed out" := by
  rw [c8_retrieval_error_aborts wGetFailed wRun wFromU wObj [wObj]
    ["CRD \"other\" upgrade blocked: x"] "memcacheds.cache.example.com"
    { Name := "memcacheds.cache.example.com" } "etcdserver: request timed out" rfl rfl rfl rfl]
  decide

/-- C10: if the Runner's Results have the failure flag set while every
per-check error list is empty, the loop still returns the blocked error for
the CRD, whose embedded summary is the zero-issue text. -/
theorem c10_blocked_with_empty_report
    (getCRD : String → LookupResult)
    (run : CustomResourceDefinition → CustomResourceDefinition → Results)
    (fromU : Unstructured → Except String CustomResourceDefinition)
    (o : ManifestObj) (u : Unstructured)
    (oldCrd newCrd : CustomResourceDefinition) (results : Results)
    (hg : o.gvk = crdGVK) (hu : o.toUnstructuredResult = Except.ok u)
    (hf : fromU u = Except.ok newCrd)
    (hfound : getCRD newCrd.Name = LookupResult.found oldCrd)
    (hrun : run oldCrd newCrd = results)
    (hfail : results.HasFailures = true)
    (h1 : ∀ r ∈ results.CRDValidation, r.Errors = [])
    (h2 : ∀ vp ∈ results.SameVersionValidation, ∀ pc ∈ vp.2, ∀ r ∈ pc.2, r.Errors = [])
    (h3 : ∀ vp ∈ results.ServedVersionValidation, ∀ pc ∈ vp.2, ∀ r ∈ pc.2, r.Errors = []) :
    loopObjs getCRD run fromU [o] []
      = some ("CRD \"" ++ newCrd.Name ++ "\" upgrade blocked: "
          ++ "CRD Upgrade Safety\nTotal: 0\nIssues: none") := by
  have hsum := summarize_of_no_issues results (collectIssues_nil results h1 h2 h3)
  simp [loopObjs, hg, hu, hf, hfound, hrun, hfail, hsum, joinErrors]
  rfl

/-- C10 (witness): a concrete Results value with the failure flag set and
one error-free check blocks the upgrade with the zero-issue report. -/
theorem c10_blocked_with_empty_report_witness :
    loopObjs wGetFound wRun wFromU [wObj] []
      = some ("CRD \"" ++ ("memcacheds.cache.example.com" : String) ++ "\" upgrade blocked: "
          ++ "CRD Upgrade Safety\nTotal: 0\nIssues: none") :=
  c10_blocked_with_empty_report wGetFound wRun wFromU wObj "memcacheds.cache.example.com"
    { Name := "memcacheds.cache.example.com" } { Name := "memcacheds.cache.example.com" }
    emptyFailedResults rfl rfl rfl rfl rfl rfl (by decide) (by decide) (by decide)

end Crd
